import Mathlib

/-!
Shallow embedding of the School-Management-System frontend
(src/frontend/src/services/api.js, src/frontend/src/components/Dashboard.jsx,
src/frontend/src/components/admin/ClassesManagement.jsx,
src/frontend/src/components/admin/HolidaysEvents.jsx, which also contains the
Layout component), together with theorems settling the frozen claims about it.

JavaScript values that the code branches on (truthiness of filter arguments,
optional fields reached through optional chaining) are modelled by JSValue;
machine state touched by the code (localStorage, window.location, React
component state) is passed explicitly; rejected promises are modelled by
Except.
-/

/-- A JavaScript value as far as the frontend code inspects one: null,
undefined, booleans, numbers, strings, and plain objects (association lists
of named fields). -/
inductive JSValue where
  | null
  | undefined
  | bool (b : Bool)
  | num (n : Int)
  | str (s : String)
  | obj (fields : List (String × JSValue))

/-- JavaScript truthiness, as used by the code in conditions such as
`if (token)` and `search ? ... : ...` and by the `||` operator. -/
def JSValue.truthy : JSValue → Bool
  | .null => false
  | .undefined => false
  | .bool b => b
  | .num n => n != 0
  | .str s => s != ""
  | .obj _ => true

/-- Property access through optional chaining, `x?.k`: a field lookup on an
object, undefined on everything else (the code only applies it behind `?.`,
so the throwing cases of plain access never arise). -/
def JSValue.getProp : JSValue → String → JSValue
  | .obj fields, k =>
      match fields.find? (fun p => p.1 == k) with
      | some p => p.2
      | none => .undefined
  | _, _ => .undefined

/-- The JavaScript `a || b` operator on values. -/
def jsOr (a b : JSValue) : JSValue :=
  if a.truthy then a else b

/-- An HTTP response as axios hands it to the code: a numeric status and the
parsed JSON body in `data`. -/
structure HttpResp where
  status : Nat
  data : JSValue

/-- An axios rejection value: `error.response` is present when the server
answered with an error status and absent on transport failure. -/
structure AxiosError where
  response : Option HttpResp

/-- The expression `err.response?.data?.detail` used by the CRUD handlers. -/
def errDetail (e : AxiosError) : JSValue :=
  match e.response with
  | none => .undefined
  | some r => r.data.getProp "detail"

/-- The expression `error.response?.status` used by the response interceptor. -/
def errStatus (e : AxiosError) : Option Nat :=
  e.response.map HttpResp.status

/-! ### api.js: interceptors

localStorage (as far as api.js touches it: the `token` and `user` keys) and
`window.location.href` are the browser state the interceptors read and write. -/

/-- The two localStorage keys api.js reads and writes. -/
structure BrowserStorage where
  token : Option String
  user : Option String

/-- Browser state visible to api.js: localStorage plus `window.location.href`. -/
structure BrowserState where
  storage : BrowserStorage
  locationHref : String

/-- An outgoing request config as the request interceptor sees it: its header
list (header names to values). -/
structure RequestConfig where
  headers : List (String × String)

/-- `config.headers.Authorization = v`: set (or overwrite) one header. -/
def setHeader (hs : List (String × String)) (k v : String) : List (String × String) :=
  (k, v) :: hs.filter (fun p => p.1 != k)

/-- Header lookup. -/
def getHeader (hs : List (String × String)) (k : String) : Option String :=
  (hs.find? (fun p => p.1 == k)).map (fun p => p.2)

/-- api.js lines 14-21: the request interceptor reads
`localStorage.getItem('token')` and, when the value is truthy, sets
`config.headers.Authorization` to the string `Bearer ` followed by the token. -/
def requestInterceptor (s : BrowserState) (config : RequestConfig) : RequestConfig :=
  match s.storage.token with
  | some t =>
      if t != "" then
        { config with headers := setHeader config.headers "Authorization" ("Bearer " ++ t) }
      else config
  | none => config

/-- api.js lines 28-39, error arm: when `error.response?.status === 401` the
interceptor removes the `token` and `user` localStorage items and assigns
`window.location.href = '/login'`; otherwise it touches nothing (the error is
re-thrown either way, which Except models at the call sites). -/
def responseErrorInterceptor (e : AxiosError) (s : BrowserState) : BrowserState :=
  if errStatus e = some 401 then
    { storage := { token := none, user := none }, locationHref := "/login" }
  else s

/-- api.js line 29, success arm: `(response) => response`, touching no state. -/
def responseSuccessInterceptor (r : HttpResp) (s : BrowserState) : HttpResp × BrowserState :=
  (r, s)

/-! ### api.js: the per-endpoint functions

Each exported function is embedded in two parts where a claim needs them:
the request it issues (method, path, query params) and the value it resolves
with, as a function of the awaited axios result. A rejected axios promise is
`Except.error`; `await` propagates it, which every function here does. -/

/-- The HTTP request a client function hands to axios: method, path, and the
query-parameter object (in insertion order). -/
structure HttpRequest where
  method : String
  path : String
  params : List (String × JSValue)

/-- Propagation of `await`: a rejected call makes the whole async function
reject with the same error; a fulfilled call continues with the response. -/
def awaited (k : HttpResp → JSValue) : Except AxiosError HttpResp → Except AxiosError JSValue
  | .error e => .error e
  | .ok resp => .ok (k resp)

namespace authAPI

/-- api.js lines 43-46: resolves with `response.data`. -/
def login : Except AxiosError HttpResp → Except AxiosError JSValue :=
  awaited HttpResp.data

/-- api.js lines 47-50: resolves with `response.data`. -/
def setPassword : Except AxiosError HttpResp → Except AxiosError JSValue :=
  awaited HttpResp.data

end authAPI

namespace schoolsAPI

/-- api.js lines 55-59: `const params = search ? { search } : {}` then
`api.get('/schools/', { params })`. -/
def getAllRequest (search : JSValue) : HttpRequest :=
  { method := "GET", path := "/schools/",
    params := if search.truthy then [("search", search)] else [] }

/-- api.js lines 55-59: resolves with `response.data`. -/
def getAll : Except AxiosError HttpResp → Except AxiosError JSValue :=
  awaited HttpResp.data

/-- api.js lines 60-63: resolves with `response.data`. -/
def getById : Except AxiosError HttpResp → Except AxiosError JSValue :=
  awaited HttpResp.data

/-- api.js lines 64-67: resolves with `response.data`. -/
def create : Except AxiosError HttpResp → Except AxiosError JSValue :=
  awaited HttpResp.data

/-- api.js lines 68-71: resolves with `response.data`. -/
def update : Except AxiosError HttpResp → Except AxiosError JSValue :=
  awaited HttpResp.data

/-- api.js lines 72-75: `await api.delete(...)` then `return true` — the
response body is discarded and the literal boolean true is returned. -/
def delete : Except AxiosError HttpResp → Except AxiosError JSValue :=
  awaited (fun _ => .bool true)

end schoolsAPI

namespace adminsAPI

/-- api.js lines 80-86: `params = {}` then `if (search) params.search = search;
if (schoolId) params.school_id = schoolId` then `api.get('/schools/admins', { params })`. -/
def getAllRequest (search schoolId : JSValue) : HttpRequest :=
  { method := "GET", path := "/schools/admins",
    params :=
      (if search.truthy then [("search", search)] else []) ++
      (if schoolId.truthy then [("school_id", schoolId)] else []) }

/-- api.js lines 80-86: resolves with `response.data`. -/
def getAll : Except AxiosError HttpResp → Except AxiosError JSValue :=
  awaited HttpResp.data

/-- api.js lines 87-90: resolves with `response.data`. -/
def getById : Except AxiosError HttpResp → Except AxiosError JSValue :=
  awaited HttpResp.data

/-- api.js lines 91-94: resolves with `response.data`. -/
def getBySchool : Except AxiosError HttpResp → Except AxiosError JSValue :=
  awaited HttpResp.data

/-- api.js lines 96-103: resolves with `response.data`. -/
def invite : Except AxiosError HttpResp → Except AxiosError JSValue :=
  awaited HttpResp.data

/-- api.js lines 105-108: resolves with `response.data`. -/
def create : Except AxiosError HttpResp → Except AxiosError JSValue :=
  awaited HttpResp.data

/-- api.js lines 109-112: resolves with `response.data`. -/
def update : Except AxiosError HttpResp → Except AxiosError JSValue :=
  awaited HttpResp.data

/-- api.js lines 113-116: `await api.delete(...)` then `return true` — the
response body is discarded and the literal boolean true is returned. -/
def delete : Except AxiosError HttpResp → Except AxiosError JSValue :=
  awaited (fun _ => .bool true)

end adminsAPI

namespace dashboardAPI

/-- api.js lines 121-124: resolves with `response.data`. -/
def getStats : Except AxiosError HttpResp → Except AxiosError JSValue :=
  awaited HttpResp.data

/-- api.js lines 125-132: `params = {}` then `if (search) params.search = search;
if (role) params.role = role; if (schoolId) params.school_id = schoolId` then
`api.get('/dashboard/users', { params })`. -/
def getUsersRequest (search role schoolId : JSValue) : HttpRequest :=
  { method := "GET", path := "/dashboard/users",
    params :=
      (if search.truthy then [("search", search)] else []) ++
      (if role.truthy then [("role", role)] else []) ++
      (if schoolId.truthy then [("school_id", schoolId)] else []) }

/-- api.js lines 125-132: resolves with `response.data`. -/
def getUsers : Except AxiosError HttpResp → Except AxiosError JSValue :=
  awaited HttpResp.data

/-- api.js lines 133-136: resolves with `response.data`. -/
def getUserById : Except AxiosError HttpResp → Except AxiosError JSValue :=
  awaited HttpResp.data

end dashboardAPI

/-! ### Dashboard.jsx: role-based route mounting -/

/-- A user record as the frontend receives it; the routing code inspects only
the `role` string. -/
structure User where
  id : Int
  name : String
  email : String
  role : String

/-- The page components imported by Dashboard.jsx. -/
inductive PageComponent where
  | DashboardOverview | SchoolList | CreateSchool | EditSchool | SchoolDetails
  | AdminList | CreateAdmin | EditAdmin | ViewAllUsers
  | SchoolAdminDashboard | TeachersManagement | StudentsManagement
  | ParentsManagement | ClassesManagement | TimetableManagement
  | HolidaysEvents | Announcements | LessonsView | Analytics
  | TeacherDashboard | MyClasses | MyStudents | Attendance
  deriving DecidableEq

/-- One mounted `Route` element: its path pattern (`none` for the index
route) and the component it renders. -/
structure RouteEntry where
  path : Option String
  component : PageComponent
  deriving DecidableEq

/-- Dashboard.jsx lines 43-54: the school-admin route tree. -/
def schoolAdminRoutes : List RouteEntry :=
  [ { path := none, component := .SchoolAdminDashboard },
    { path := some "/teachers", component := .TeachersManagement },
    { path := some "/students", component := .StudentsManagement },
    { path := some "/parents", component := .ParentsManagement },
    { path := some "/classes", component := .ClassesManagement },
    { path := some "/timetable", component := .TimetableManagement },
    { path := some "/holidays-events", component := .HolidaysEvents },
    { path := some "/announcements", component := .Announcements },
    { path := some "/lessons", component := .LessonsView },
    { path := some "/analytics", component := .Analytics } ]

/-- Dashboard.jsx lines 57-63: the teacher route tree. -/
def teacherRoutes : List RouteEntry :=
  [ { path := none, component := .TeacherDashboard },
    { path := some "/classes", component := .MyClasses },
    { path := some "/classes/:classId/students", component := .MyStudents },
    { path := some "/students", component := .MyStudents },
    { path := some "/attendance", component := .Attendance } ]

/-- Dashboard.jsx lines 66-76: the super-admin route tree. -/
def superAdminRoutes : List RouteEntry :=
  [ { path := none, component := .DashboardOverview },
    { path := some "/schools/:id/edit", component := .EditSchool },
    { path := some "/schools/:id", component := .SchoolDetails },
    { path := some "/schools", component := .SchoolList },
    { path := some "/create-school", component := .CreateSchool },
    { path := some "/admins/:id/edit", component := .EditAdmin },
    { path := some "/admins", component := .AdminList },
    { path := some "/create-admin", component := .CreateAdmin },
    { path := some "/users", component := .ViewAllUsers } ]

namespace Dashboard

/-- Dashboard.jsx line 35: `user?.role === 'ADMIN'`. -/
def isAdmin (user : Option User) : Bool :=
  match user with
  | some u => u.role == "ADMIN"
  | none => false

/-- Dashboard.jsx line 36: `user?.role === 'TEACHER'`. -/
def isTeacher (user : Option User) : Bool :=
  match user with
  | some u => u.role == "TEACHER"
  | none => false

/-- Dashboard.jsx lines 38-80: the set of `Route` elements mounted inside the
`Routes` element — the school-admin tree when `isAdmin`, the teacher tree
when `isTeacher`, and the super-admin tree otherwise. -/
def mountedRoutes (user : Option User) : List RouteEntry :=
  if isAdmin user then schoolAdminRoutes
  else if isTeacher user then teacherRoutes
  else superAdminRoutes

end Dashboard

/-! ### Layout (second component in the HolidaysEvents.jsx source file):
the super-admin shell and its access gate -/

/-- One sidebar menu entry of Layout. -/
structure MenuItem where
  id : String
  label : String
  path : String
  deriving DecidableEq

/-- Layout lines 380-387: the fixed super-admin sidebar menu. -/
def layoutMenuItems : List MenuItem :=
  [ { id := "dashboard", label := "Dashboard", path := "/dashboard" },
    { id := "schools", label := "Schools", path := "/dashboard/schools" },
    { id := "create-school", label := "Create School", path := "/dashboard/create-school" },
    { id := "admins", label := "Admins", path := "/dashboard/admins" },
    { id := "create-admin", label := "Create Admin", path := "/dashboard/create-admin" },
    { id := "users", label := "All Users", path := "/dashboard/users" } ]

/-- What a render of Layout produces: either the access-denied view, or the
full shell carrying the sidebar menu, the header title, and the wrapped
children. -/
inductive LayoutRender (α : Type) where
  | accessDenied
  | shell (menu : List MenuItem) (headerTitle : String) (children : α)

/-- Modelled from the spec: AuthContext (src/frontend/src/context/AuthContext.jsx
is not among the sources). Per spec sections 4.2 and 4.3 and the glossary, the
context exposes the current user together with derived role flags, and the
`isSuperAdmin` capability flag holds exactly when the user role string is
SUPER_ADMIN. -/
def isSuperAdminOf : Option User → Bool
  | some u => u.role == "SUPER_ADMIN"
  | none => false

/-- The auth-context value Layout destructures: `{ user, logout, isSuperAdmin }`. -/
structure AuthContextState where
  user : Option User
  isSuperAdmin : Bool

/-- Modelled from the spec: the auth context derives its flags from the
current user (spec section 4.2). -/
def mkAuthContext (user : Option User) : AuthContextState :=
  { user := user, isSuperAdmin := isSuperAdminOf user }

namespace Layout

/-- Layout lines 374-501: `if (!isSuperAdmin)` render the access-denied view
and return; otherwise render the sidebar (menuItems), the header titled
`Super Admin Dashboard`, and `children` inside `main`. The requested URL
(`location`) and the sidebar-collapse flag only affect styling and menu
highlighting, never which of the two views is rendered. -/
def render (auth : AuthContextState) (location : String) (sidebarOpen : Bool)
    (children : α) : LayoutRender α :=
  if !auth.isSuperAdmin then
    .accessDenied
  else
    .shell layoutMenuItems "Super Admin Dashboard" children

end Layout

/-! ### ClassesManagement.jsx -/

/-- ClassesManagement.jsx lines 12-18: the create-form fields, all strings. -/
structure ClassFormData where
  name : String
  grade : String
  subject_id : String
  teacher_id : String
  academic_year : String
  deriving DecidableEq

/-- The reset value `setFormData` receives on success (every field empty),
which is also the initial form state. -/
def emptyClassFormData : ClassFormData :=
  { name := "", grade := "", subject_id := "", teacher_id := "", academic_year := "" }

/-- The React state of ClassesManagement (lines 5-18). -/
structure ClassesState where
  classes : JSValue
  subjects : JSValue
  teachers : JSValue
  loading : Bool
  error : String
  showCreateForm : Bool
  formData : ClassFormData

/-- The primitive steps handleCreateClass performs, in source order: state
setters, kicking off a re-fetch, the blocking alert, and the console log. -/
inductive ClassesAction where
  | setShowCreateForm (b : Bool)
  | setFormData (f : ClassFormData)
  | startFetchInitialData
  | alert (msg : JSValue)
  | consoleError

/-- ClassesManagement.jsx lines 44-68: on a fulfilled `createClass` call the
handler closes the form, resets the form data, calls `fetchInitialData()`, and
alerts success; on a rejected call it logs and alerts
`err.response?.data?.detail || 'Failed to create class'`, performing no state
update. -/
def handleCreateClass (result : Except AxiosError JSValue) : List ClassesAction :=
  match result with
  | .ok _ =>
      [ .setShowCreateForm false,
        .setFormData emptyClassFormData,
        .startFetchInitialData,
        .alert (.str "Class created successfully!") ]
  | .error err =>
      [ .consoleError,
        .alert (jsOr (errDetail err) (.str "Failed to create class")) ]

/-- Effect of one action on the synchronous component state (the re-fetch,
alert, and console actions change no state of this component when performed). -/
def applyClassesAction (s : ClassesState) : ClassesAction → ClassesState
  | .setShowCreateForm b => { s with showCreateForm := b }
  | .setFormData f => { s with formData := f }
  | .startFetchInitialData => s
  | .alert _ => s
  | .consoleError => s

/-- Effect of a whole action sequence on the component state. -/
def applyClassesActions (s : ClassesState) (acts : List ClassesAction) : ClassesState :=
  acts.foldl applyClassesAction s

/-- The alert messages an action sequence shows, in order. -/
def classesAlerts (acts : List ClassesAction) : List JSValue :=
  acts.filterMap (fun a =>
    match a with
    | .alert m => some m
    | _ => none)

/-! ### HolidaysEvents.jsx -/

/-- HolidaysEvents.jsx lines 12-17: the holiday-form fields. -/
structure HolidayFormData where
  name : String
  start_date : String
  end_date : String
  description : String
  deriving DecidableEq

/-- The reset value of the holiday form (all fields empty), also its initial
state. -/
def emptyHolidayFormData : HolidayFormData :=
  { name := "", start_date := "", end_date := "", description := "" }

/-- HolidaysEvents.jsx lines 19-25: the event-form fields. -/
structure EventFormData where
  title : String
  description : String
  event_date : String
  event_time : String
  event_type : String
  deriving DecidableEq

/-- The reset value of the event form (all fields empty). -/
def emptyEventFormData : EventFormData :=
  { title := "", description := "", event_date := "", event_time := "", event_type := "" }

/-- The React state of HolidaysEvents (lines 5-25). -/
structure HolidaysState where
  holidays : JSValue
  events : JSValue
  loading : Bool
  error : String
  showHolidayForm : Bool
  showEventForm : Bool
  holidayForm : HolidayFormData
  eventForm : EventFormData

/-- HolidaysEvents.jsx lines 31-47, `fetchData`: sets loading, awaits
`Promise.all([getHolidays(), getEvents()])` (fulfilled only when both calls
fulfil, rejected when either rejects), on success stores both lists and
clears the error, on failure only sets the error message, and in the
`finally` clause clears loading. -/
def fetchData (result : Except AxiosError (JSValue × JSValue)) (s : HolidaysState) :
    HolidaysState :=
  let loadingState := { s with loading := true }
  match result with
  | .ok (holidaysData, eventsData) =>
      { loadingState with
          holidays := holidaysData, events := eventsData, error := "", loading := false }
  | .error _ =>
      { loadingState with
          error := "Failed to load holidays and events. Please try again.", loading := false }

/-- The primitive steps handleCreateHoliday performs, in source order. -/
inductive HolidaysAction where
  | setShowHolidayForm (b : Bool)
  | setHolidayForm (f : HolidayFormData)
  | startFetchData
  | alert (msg : JSValue)
  | consoleError

/-- HolidaysEvents.jsx lines 49-61: on a fulfilled `createHoliday` call the
handler closes the holiday form, resets the holiday form data, calls
`fetchData()`, and alerts success; on a rejected call it logs and alerts
`err.response?.data?.detail || 'Failed to create holiday'`. -/
def handleCreateHoliday (result : Except AxiosError JSValue) : List HolidaysAction :=
  match result with
  | .ok _ =>
      [ .setShowHolidayForm false,
        .setHolidayForm emptyHolidayFormData,
        .startFetchData,
        .alert (.str "Holiday created successfully!") ]
  | .error err =>
      [ .consoleError,
        .alert (jsOr (errDetail err) (.str "Failed to create holiday")) ]

/-- Effect of one action on the synchronous component state. -/
def applyHolidaysAction (s : HolidaysState) : HolidaysAction → HolidaysState
  | .setShowHolidayForm b => { s with showHolidayForm := b }
  | .setHolidayForm f => { s with holidayForm := f }
  | .startFetchData => s
  | .alert _ => s
  | .consoleError => s

/-- Effect of a whole action sequence on the component state. -/
def applyHolidaysActions (s : HolidaysState) (acts : List HolidaysAction) : HolidaysState :=
  acts.foldl applyHolidaysAction s

/-! ### The holiday-create form and browser constraint validation -/

/-- One form control: whether it carries the `required` attribute and the
bound state value. -/
structure FormField where
  required : Bool
  value : String

/-- HolidaysEvents.jsx lines 118-158: the holiday-create form controls in
order — name (required), start_date (required), end_date (required),
description (not required) — each bound to the matching holidayForm field. -/
def holidayFormFields (f : HolidayFormData) : List FormField :=
  [ { required := true, value := f.name },
    { required := true, value := f.start_date },
    { required := true, value := f.end_date },
    { required := false, value := f.description } ]

/-- Modelled from the spec: native browser required-field constraint
validation (spec sections 4.4 and 8) — submitting a form dispatches the
submit event only when every control marked `required` has a nonempty value. -/
def browserAllowsSubmit (fields : List FormField) : Bool :=
  fields.all (fun fld => !fld.required || fld.value != "")

/-- Submission of the holiday-create form: the browser runs constraint
validation first; only when it passes is the submit handler
(`handleCreateHoliday`, line 118) invoked, and with it the network call.
`none` means the handler never ran. -/
def submitHolidayForm (f : HolidayFormData) (callResult : Except AxiosError JSValue) :
    Option (List HolidaysAction) :=
  if browserAllowsSubmit (holidayFormFields f) then
    some (handleCreateHoliday callResult)
  else
    none

/-! ### Concrete sample values used by witnesses and counterexamples -/

/-- A rejected call whose server response carries the detail Teacher not
found. -/
def teacherNotFoundError : AxiosError :=
  { response := some { status := 400, data := .obj [("detail", .str "Teacher not found")] } }

/-- A rejected call whose server response carries a detail field holding the
empty string. -/
def emptyDetailError : AxiosError :=
  { response := some { status := 400, data := .obj [("detail", .str "")] } }

/-- A concrete ClassesManagement state with the create form open and every
field filled in. -/
def filledClassesState : ClassesState :=
  { classes := .obj [], subjects := .obj [], teachers := .obj [],
    loading := false, error := "", showCreateForm := true,
    formData := { name := "5A", grade := "5", subject_id := "2",
                  teacher_id := "7", academic_year := "2024-2025" } }

/-! ### Claims -/

/-- C1: for every role R among SUPER_ADMIN, ADMIN and TEACHER, the Dashboard
router mounts exactly the fixed route-to-component set defined for R (ADMIN
the school-admin tree, TEACHER the teacher tree, SUPER_ADMIN the super-admin
tree), the mounted set is a function of the user role alone, the three
route-to-component sets are pairwise disjoint, and no route entry of another
role belongs to the set mounted while R is active. -/
theorem dashboard_routes_role_gated (u : User) :
    (u.role = "ADMIN" → Dashboard.mountedRoutes (some u) = schoolAdminRoutes)
    ∧ (u.role = "TEACHER" → Dashboard.mountedRoutes (some u) = teacherRoutes)
    ∧ (u.role = "SUPER_ADMIN" → Dashboard.mountedRoutes (some u) = superAdminRoutes)
    ∧ (∀ v : User, v.role = u.role →
        Dashboard.mountedRoutes (some v) = Dashboard.mountedRoutes (some u))
    ∧ (∀ e ∈ schoolAdminRoutes, e ∉ teacherRoutes ∧ e ∉ superAdminRoutes)
    ∧ (∀ e ∈ teacherRoutes, e ∉ superAdminRoutes)
    ∧ (u.role = "ADMIN" → ∀ e, e ∈ teacherRoutes ∨ e ∈ superAdminRoutes →
        e ∉ Dashboard.mountedRoutes (some u))
    ∧ (u.role = "TEACHER" → ∀ e, e ∈ schoolAdminRoutes ∨ e ∈ superAdminRoutes →
        e ∉ Dashboard.mountedRoutes (some u))
    ∧ (u.role = "SUPER_ADMIN" → ∀ e, e ∈ schoolAdminRoutes ∨ e ∈ teacherRoutes →
        e ∉ Dashboard.mountedRoutes (some u)) := by
  have hAdmin : u.role = "ADMIN" → Dashboard.mountedRoutes (some u) = schoolAdminRoutes := by
    intro h
    simp only [Dashboard.mountedRoutes, Dashboard.isAdmin, Dashboard.isTeacher, h]
    decide
  have hTeacher : u.role = "TEACHER" → Dashboard.mountedRoutes (some u) = teacherRoutes := by
    intro h
    simp only [Dashboard.mountedRoutes, Dashboard.isAdmin, Dashboard.isTeacher, h]
    decide
  have hSuper : u.role = "SUPER_ADMIN" → Dashboard.mountedRoutes (some u) = superAdminRoutes := by
    intro h
    simp only [Dashboard.mountedRoutes, Dashboard.isAdmin, Dashboard.isTeacher, h]
    decide
  refine ⟨hAdmin, hTeacher, hSuper, ?_, by decide, by decide, ?_, ?_, ?_⟩
  · intro v hv
    simp only [Dashboard.mountedRoutes, Dashboard.isAdmin, Dashboard.isTeacher, hv]
  · intro h e he
    rw [hAdmin h]
    rcases he with he | he
    · exact (by decide : ∀ x ∈ teacherRoutes, x ∉ schoolAdminRoutes) e he
    · exact (by decide : ∀ x ∈ superAdminRoutes, x ∉ schoolAdminRoutes) e he
  · intro h e he
    rw [hTeacher h]
    rcases he with he | he
    · exact (by decide : ∀ x ∈ schoolAdminRoutes, x ∉ teacherRoutes) e he
    · exact (by decide : ∀ x ∈ superAdminRoutes, x ∉ teacherRoutes) e he
  · intro h e he
    rw [hSuper h]
    rcases he with he | he
    · exact (by decide : ∀ x ∈ schoolAdminRoutes, x ∉ superAdminRoutes) e he
    · exact (by decide : ∀ x ∈ teacherRoutes, x ∉ superAdminRoutes) e he

/-- C1 witness: at a concrete ADMIN user the mounted set is exactly the
school-admin tree. -/
theorem dashboard_routes_role_gated_witness :
    Dashboard.mountedRoutes (some { id := 1, name := "A", email := "a@s", role := "ADMIN" }) =
      schoolAdminRoutes :=
  (dashboard_routes_role_gated { id := 1, name := "A", email := "a@s", role := "ADMIN" }).1 rfl

/-- C2: for every user whose role is not SUPER_ADMIN, rendering Layout yields
the access-denied view and never the shell with sidebar, header and wrapped
children, whatever the requested URL and sidebar state. -/
theorem layout_denies_non_super_admin {α : Type} (u : User) (location : String)
    (sidebarOpen : Bool) (children : α) (h : u.role ≠ "SUPER_ADMIN") :
    Layout.render (mkAuthContext (some u)) location sidebarOpen children = .accessDenied
    ∧ ∀ (menu : List MenuItem) (title : String) (c : α),
        Layout.render (mkAuthContext (some u)) location sidebarOpen children ≠
          .shell menu title c := by
  have hflag : isSuperAdminOf (some u) = false := by
    simp [isSuperAdminOf, h]
  constructor
  · simp [Layout.render, mkAuthContext, hflag]
  · intro menu title c
    simp [Layout.render, mkAuthContext, hflag]

/-- C2 witness: a concrete TEACHER user gets the access-denied view. -/
theorem layout_denies_non_super_admin_witness :
    Layout.render (mkAuthContext (some { id := 2, name := "T", email := "t@s", role := "TEACHER" }))
      "/dashboard/schools" true (0 : Nat) = .accessDenied :=
  (layout_denies_non_super_admin { id := 2, name := "T", email := "t@s", role := "TEACHER" }
    "/dashboard/schools" true (0 : Nat) (by decide)).1

/-- C3: a response error with status 401 clears the stored token and user and
navigates to the login path; an error with any other status (or with no
response at all) leaves browser state unchanged, as does every successful
response. -/
theorem response_401_clears_session (e : AxiosError) (s : BrowserState) (r : HttpResp) :
    (errStatus e = some 401 →
      responseErrorInterceptor e s =
        { storage := { token := none, user := none }, locationHref := "/login" })
    ∧ (errStatus e ≠ some 401 → responseErrorInterceptor e s = s)
    ∧ responseSuccessInterceptor r s = (r, s) := by
  refine ⟨?_, ?_, rfl⟩
  · intro h
    simp [responseErrorInterceptor, h]
  · intro h
    simp [responseErrorInterceptor, h]

/-- C3 witness: a 401 error clears a concrete session and redirects, a 500
error leaves it untouched. -/
theorem response_401_clears_session_witness :
    responseErrorInterceptor { response := some { status := 401, data := .null } }
        { storage := { token := some "tok", user := some "u" }, locationHref := "/dashboard" } =
      { storage := { token := none, user := none }, locationHref := "/login" }
    ∧ responseErrorInterceptor { response := some { status := 500, data := .null } }
        { storage := { token := some "tok", user := some "u" }, locationHref := "/dashboard" } =
      { storage := { token := some "tok", user := some "u" }, locationHref := "/dashboard" } :=
  ⟨(response_401_clears_session { response := some { status := 401, data := .null } }
      { storage := { token := some "tok", user := some "u" }, locationHref := "/dashboard" }
      { status := 200, data := .null }).1 rfl,
   (response_401_clears_session { response := some { status := 500, data := .null } }
      { storage := { token := some "tok", user := some "u" }, locationHref := "/dashboard" }
      { status := 200, data := .null }).2.1 (by decide)⟩

/-- C4 counterexample: with the empty string stored under the token key, a
token is present in persisted storage, yet the request interceptor attaches
no Authorization header — the stored empty string is falsy, so the claim as
stated fails at this input. -/
theorem request_interceptor_empty_token_counterexample :
    ({ storage := { token := some "", user := some "u" }, locationHref := "/x" } :
        BrowserState).storage.token = some ""
    ∧ requestInterceptor
        { storage := { token := some "", user := some "u" }, locationHref := "/x" }
        { headers := [] } = { headers := [] }
    ∧ getHeader (requestInterceptor
        { storage := { token := some "", user := some "u" }, locationHref := "/x" }
        { headers := [] }).headers "Authorization" = none :=
  ⟨rfl, rfl, rfl⟩

/-- C4 amended: if a nonempty token is stored at request time the request
carries the header Authorization with value Bearer followed by the token;
if no token is stored, or the stored token is the empty string, the config
passes through unchanged, so no Authorization header is attached. -/
theorem request_interceptor_bearer_token (s : BrowserState) (config : RequestConfig)
    (t : String) :
    (s.storage.token = some t → t ≠ "" →
      getHeader (requestInterceptor s config).headers "Authorization" =
        some ("Bearer " ++ t))
    ∧ (s.storage.token = none ∨ s.storage.token = some "" →
      requestInterceptor s config = config) := by
  constructor
  · intro htok hne
    simp [requestInterceptor, htok, hne, getHeader, setHeader]
  · intro h
    rcases h with h | h <;> simp [requestInterceptor, h]

/-- C4 witness: a concrete nonempty stored token yields the bearer header,
and an absent token leaves the config unchanged. -/
theorem request_interceptor_bearer_token_witness :
    getHeader (requestInterceptor
        { storage := { token := some "abc", user := none }, locationHref := "/x" }
        { headers := [] }).headers "Authorization" = some ("Bearer " ++ "abc")
    ∧ requestInterceptor { storage := { token := none, user := none }, locationHref := "/x" }
        { headers := [] } = { headers := [] } :=
  ⟨(request_interceptor_bearer_token
      { storage := { token := some "abc", user := none }, locationHref := "/x" }
      { headers := [] } "abc").1 rfl (by decide),
   (request_interceptor_bearer_token
      { storage := { token := none, user := none }, locationHref := "/x" }
      { headers := [] } "").2 (Or.inl rfl)⟩

/-- C5 counterexample: a rejected createClass call whose server response has
a detail field holding the empty string — the handler alerts the generic
fallback, not that detail string, because the empty string is falsy; so the
claim that the fallback appears only when detail is absent fails at this
input. -/
theorem create_class_empty_detail_counterexample :
    errDetail emptyDetailError = .str ""
    ∧ classesAlerts (handleCreateClass (.error emptyDetailError)) =
      [.str "Failed to create class"]
    ∧ (JSValue.str "Failed to create class") ≠ .str "" :=
  ⟨rfl, rfl, by simp⟩

/-- C5 amended: on every rejected createClass call the component state is
left entirely unchanged — in particular showCreateForm and formData — and the
alert shows exactly the servers detail string whenever that detail is a
nonempty string, and the generic fallback whenever the detail is absent or
otherwise falsy (for example the empty string). -/
theorem create_class_error_keeps_form (e : AxiosError) (s : ClassesState) (d : String) :
    applyClassesActions s (handleCreateClass (.error e)) = s
    ∧ (applyClassesActions s (handleCreateClass (.error e))).showCreateForm = s.showCreateForm
    ∧ (applyClassesActions s (handleCreateClass (.error e))).formData = s.formData
    ∧ (errDetail e = .str d → d ≠ "" →
        classesAlerts (handleCreateClass (.error e)) = [.str d])
    ∧ ((errDetail e).truthy = false →
        classesAlerts (handleCreateClass (.error e)) = [.str "Failed to create class"]) := by
  refine ⟨rfl, rfl, rfl, ?_, ?_⟩
  · intro hd hne
    have : classesAlerts (handleCreateClass (.error e)) =
        [jsOr (errDetail e) (.str "Failed to create class")] := rfl
    rw [this, hd]
    simp [jsOr, JSValue.truthy, hne]
  · intro h
    have : classesAlerts (handleCreateClass (.error e)) =
        [jsOr (errDetail e) (.str "Failed to create class")] := rfl
    rw [this]
    simp [jsOr, h]

/-- C5 witness: at a concrete 400 rejection carrying the detail Teacher not
found, the alert is exactly that string and a concrete open form state is
untouched. -/
theorem create_class_error_keeps_form_witness :
    classesAlerts (handleCreateClass (.error teacherNotFoundError)) =
      [.str "Teacher not found"]
    ∧ applyClassesActions filledClassesState (handleCreateClass (.error teacherNotFoundError)) =
      filledClassesState :=
  ⟨(create_class_error_keeps_form teacherNotFoundError filledClassesState
      "Teacher not found").2.2.2.1 rfl (by decide),
   (create_class_error_keeps_form teacherNotFoundError filledClassesState
      "Teacher not found").1⟩

/-- C6: every fulfilled createHoliday call makes the handler perform exactly,
in order: close the holiday form, reset every holiday form field to empty,
start the re-fetch of the holiday and event lists, and show the blocking
success alert — and the resulting component state has the form closed and
reset. -/
theorem create_holiday_success_sequence (v : JSValue) (s : HolidaysState) :
    handleCreateHoliday (.ok v) =
      [ .setShowHolidayForm false,
        .setHolidayForm emptyHolidayFormData,
        .startFetchData,
        .alert (.str "Holiday created successfully!") ]
    ∧ (applyHolidaysActions s (handleCreateHoliday (.ok v))).showHolidayForm = false
    ∧ (applyHolidaysActions s (handleCreateHoliday (.ok v))).holidayForm =
        emptyHolidayFormData
    ∧ (applyHolidaysActions s (handleCreateHoliday (.ok v))).holidays = s.holidays
    ∧ (applyHolidaysActions s (handleCreateHoliday (.ok v))).events = s.events :=
  ⟨rfl, rfl, rfl, rfl, rfl⟩

/-- C7 counterexample: at a fulfilled DELETE whose parsed body is a string,
both delete functions resolve with the literal boolean true, which differs
from the parsed response body — refuting the claim that every API-client
function, in particular the two delete functions, returns the parsed body. -/
theorem api_delete_returns_true_counterexample :
    schoolsAPI.delete (.ok { status := 200, data := .str "school deleted" }) =
      .ok (.bool true)
    ∧ adminsAPI.delete (.ok { status := 200, data := .str "admin deleted" }) =
      .ok (.bool true)
    ∧ (JSValue.bool true) ≠ .str "school deleted"
    ∧ (JSValue.bool true) ≠ .str "admin deleted" :=
  ⟨rfl, rfl, by simp, by simp⟩

/-- C7 amended: every API-client function of services/api.js propagates the
underlying HTTP error on a rejected call; on a fulfilled call every function
resolves with the parsed response body, except schoolsAPI.delete and
adminsAPI.delete, which discard the body and resolve with the literal
boolean true. -/
theorem api_functions_resolve_with_body (resp : HttpResp) (e : AxiosError) :
    authAPI.login (.ok resp) = .ok resp.data
    ∧ authAPI.setPassword (.ok resp) = .ok resp.data
    ∧ schoolsAPI.getAll (.ok resp) = .ok resp.data
    ∧ schoolsAPI.getById (.ok resp) = .ok resp.data
    ∧ schoolsAPI.create (.ok resp) = .ok resp.data
    ∧ schoolsAPI.update (.ok resp) = .ok resp.data
    ∧ schoolsAPI.delete (.ok resp) = .ok (.bool true)
    ∧ adminsAPI.getAll (.ok resp) = .ok resp.data
    ∧ adminsAPI.getById (.ok resp) = .ok resp.data
    ∧ adminsAPI.getBySchool (.ok resp) = .ok resp.data
    ∧ adminsAPI.invite (.ok resp) = .ok resp.data
    ∧ adminsAPI.create (.ok resp) = .ok resp.data
    ∧ adminsAPI.update (.ok resp) = .ok resp.data
    ∧ adminsAPI.delete (.ok resp) = .ok (.bool true)
    ∧ dashboardAPI.getStats (.ok resp) = .ok resp.data
    ∧ dashboardAPI.getUsers (.ok resp) = .ok resp.data
    ∧ dashboardAPI.getUserById (.ok resp) = .ok resp.data
    ∧ authAPI.login (.error e) = .error e
    ∧ authAPI.setPassword (.error e) = .error e
    ∧ schoolsAPI.getAll (.error e) = .error e
    ∧ schoolsAPI.getById (.error e) = .error e
    ∧ schoolsAPI.create (.error e) = .error e
    ∧ schoolsAPI.update (.error e) = .error e
    ∧ schoolsAPI.delete (.error e) = .error e
    ∧ adminsAPI.getAll (.error e) = .error e
    ∧ adminsAPI.getById (.error e) = .error e
    ∧ adminsAPI.getBySchool (.error e) = .error e
    ∧ adminsAPI.invite (.error e) = .error e
    ∧ adminsAPI.create (.error e) = .error e
    ∧ adminsAPI.update (.error e) = .error e
    ∧ adminsAPI.delete (.error e) = .error e
    ∧ dashboardAPI.getStats (.error e) = .error e
    ∧ dashboardAPI.getUsers (.error e) = .error e
    ∧ dashboardAPI.getUserById (.error e) = .error e :=
  ⟨rfl, rfl, rfl, rfl, rfl, rfl, rfl, rfl, rfl, rfl, rfl, rfl, rfl, rfl, rfl, rfl, rfl,
   rfl, rfl, rfl, rfl, rfl, rfl, rfl, rfl, rfl, rfl, rfl, rfl, rfl, rfl, rfl, rfl, rfl⟩

/-- C8: submitting the holiday-create form while name, start_date or end_date
is empty is blocked by the modelled browser required-field validation, so the
submit handler — and with it the createHoliday network call — never runs. -/
theorem holiday_form_required_fields_block_submit (f : HolidayFormData)
    (r : Except AxiosError JSValue)
    (h : f.name = "" ∨ f.start_date = "" ∨ f.end_date = "") :
    submitHolidayForm f r = none := by
  rcases h with h | h | h <;>
    simp [submitHolidayForm, browserAllowsSubmit, holidayFormFields, h]

/-- C8 witness: the all-empty initial holiday form is blocked. -/
theorem holiday_form_required_fields_block_submit_witness :
    submitHolidayForm emptyHolidayFormData (.ok .null) = none :=
  holiday_form_required_fields_block_submit emptyHolidayFormData (.ok .null) (Or.inl rfl)

/-- C9: for every falsy filter argument the list-query functions omit the
corresponding query parameter entirely, and any two falsy arguments in the
same position produce identical requests (and hence, the request determining
the call, identical results); null, undefined, the empty string and zero are
exactly such falsy arguments (witness). -/
theorem falsy_filters_omitted (search role schoolId a b : JSValue)
    (ha : a.truthy = false) (hb : b.truthy = false) :
    (schoolsAPI.getAllRequest a).params = []
    ∧ schoolsAPI.getAllRequest a = schoolsAPI.getAllRequest b
    ∧ "search" ∉ (adminsAPI.getAllRequest a schoolId).params.map Prod.fst
    ∧ adminsAPI.getAllRequest a schoolId = adminsAPI.getAllRequest b schoolId
    ∧ "school_id" ∉ (adminsAPI.getAllRequest search a).params.map Prod.fst
    ∧ adminsAPI.getAllRequest search a = adminsAPI.getAllRequest search b
    ∧ "search" ∉ (dashboardAPI.getUsersRequest a role schoolId).params.map Prod.fst
    ∧ dashboardAPI.getUsersRequest a role schoolId = dashboardAPI.getUsersRequest b role schoolId
    ∧ "role" ∉ (dashboardAPI.getUsersRequest search a schoolId).params.map Prod.fst
    ∧ dashboardAPI.getUsersRequest search a schoolId =
        dashboardAPI.getUsersRequest search b schoolId
    ∧ "school_id" ∉ (dashboardAPI.getUsersRequest search role a).params.map Prod.fst
    ∧ dashboardAPI.getUsersRequest search role a =
        dashboardAPI.getUsersRequest search role b := by
  refine ⟨?_, ?_, ?_, ?_, ?_, ?_, ?_, ?_, ?_, ?_, ?_, ?_⟩
  · simp [schoolsAPI.getAllRequest, ha]
  · simp [schoolsAPI.getAllRequest, ha, hb]
  · cases h2 : schoolId.truthy <;> simp [adminsAPI.getAllRequest, ha, h2]
  · simp [adminsAPI.getAllRequest, ha, hb]
  · cases h1 : search.truthy <;> simp [adminsAPI.getAllRequest, ha, h1]
  · simp [adminsAPI.getAllRequest, ha, hb]
  · cases h1 : role.truthy <;> cases h2 : schoolId.truthy <;>
      simp [dashboardAPI.getUsersRequest, ha, h1, h2]
  · simp [dashboardAPI.getUsersRequest, ha, hb]
  · cases h1 : search.truthy <;> cases h2 : schoolId.truthy <;>
      simp [dashboardAPI.getUsersRequest, ha, h1, h2]
  · simp [dashboardAPI.getUsersRequest, ha, hb]
  · cases h1 : search.truthy <;> cases h2 : role.truthy <;>
      simp [dashboardAPI.getUsersRequest, ha, h1, h2]
  · simp [dashboardAPI.getUsersRequest, ha, hb]

/-- C9 witness: null, undefined, the empty string and zero are falsy; at
concrete arguments, null and the empty string give one identical schools
request, and zero versus null in the schoolId position give one identical
admins request. -/
theorem falsy_filters_omitted_witness :
    JSValue.null.truthy = false
    ∧ JSValue.undefined.truthy = false
    ∧ (JSValue.str "").truthy = false
    ∧ (JSValue.num 0).truthy = false
    ∧ schoolsAPI.getAllRequest .null = schoolsAPI.getAllRequest (.str "")
    ∧ adminsAPI.getAllRequest (.str "x") (.num 0) = adminsAPI.getAllRequest (.str "x") .null :=
  ⟨rfl, rfl, rfl, rfl,
   (falsy_filters_omitted .null .null .null .null (.str "") rfl rfl).2.1,
   (falsy_filters_omitted (.str "x") .null .null (.num 0) .null rfl rfl).2.2.2.2.2.1⟩

/-- C10: a failed initial HolidaysEvents fetch (either list call rejecting)
leaves the previously held holiday and event lists and every form state
unchanged and only sets the error message, a successful fetch replaces both
lists and clears the error, and loading ends up false either way. -/
theorem fetch_data_state (e : AxiosError) (s : HolidaysState) (hd ed : JSValue) :
    (fetchData (.error e) s).holidays = s.holidays
    ∧ (fetchData (.error e) s).events = s.events
    ∧ (fetchData (.error e) s).error =
        "Failed to load holidays and events. Please try again."
    ∧ (fetchData (.error e) s).loading = false
    ∧ (fetchData (.error e) s).showHolidayForm = s.showHolidayForm
    ∧ (fetchData (.error e) s).showEventForm = s.showEventForm
    ∧ (fetchData (.error e) s).holidayForm = s.holidayForm
    ∧ (fetchData (.error e) s).eventForm = s.eventForm
    ∧ (fetchData (.ok (hd, ed)) s).holidays = hd
    ∧ (fetchData (.ok (hd, ed)) s).events = ed
    ∧ (fetchData (.ok (hd, ed)) s).error = ""
    ∧ (fetchData (.ok (hd, ed)) s).loading = false :=
  ⟨rfl, rfl, rfl, rfl, rfl, rfl, rfl, rfl, rfl, rfl, rfl, rfl⟩
